import Mathlib

/-!
Shallow embedding of the `plant-browser` repository: the favorites state kept
in browser storage (`useFavorites` in
`src/app/components/PlantBrowser/PlantBrowser.tsx` and its revision in
`src/unnamed/part_000`), the Perenual API wrapper (`src/app/lib/perenual.ts`),
and the pagination / virtualization logic of the `PlantBrowser` component.

JavaScript numbers holding plant ids are modelled as `Int`; `localStorage` is
modelled as a map from keys to stored values, where a stored value is either
absent, a string that is not valid JSON, or a parsed JSON value (the string
layer of `JSON.parse` / `JSON.stringify` is abstracted into whether the text
parses and which value it denotes).
-/

/-- A JSON value, the result of `JSON.parse`. -/
inductive Json where
  | null : Json
  | bool (b : Bool) : Json
  | num (n : Int) : Json
  | str (s : String) : Json
  | arr (elems : List Json) : Json
  | obj (fields : List (String × Json)) : Json

/-- What `localStorage.getItem` can yield at a key, with the string layer
abstracted: the key is absent (`getItem` returns `null`), holds a string that
is not valid JSON (`JSON.parse` throws), or holds a string parsing to a JSON
value. -/
inductive StoredValue where
  | absent : StoredValue
  | malformed : StoredValue
  | value (j : Json) : StoredValue

/-- `const FAVORITES_KEY = 'plant_favorites'` (PlantBrowser.tsx line 14). -/
def FAVORITES_KEY : String := "plant_favorites"

/-- The browser storage: a value per key. -/
def Store : Type := String → StoredValue

/-- `localStorage.setItem(k, JSON.stringify(v))`. -/
def setItem (store : Store) (k : String) (j : Json) : Store :=
  fun k2 => if k2 = k then .value j else store k2

/-- The initializer of the `favorites` state
(`JSON.parse(localStorage.getItem(FAVORITES_KEY) || '[]')` inside
`try ... catch` returning `[]`): an absent key yields the parse of `'[]'`,
a malformed value makes `JSON.parse` throw and the catch yields `[]`, and any
other stored JSON value is returned as is, unvalidated. -/
def initFavoritesJson : StoredValue → Json
  | .absent => .arr []
  | .malformed => .arr []
  | .value j => j

/-- `useFavorites` initialization: read the favorites key from storage. -/
def initFavorites (store : Store) : Json :=
  initFavoritesJson (store FAVORITES_KEY)

/-- `JSON.stringify(favorites)` for a favorites list of ids. -/
def favoritesToJson (favs : List Int) : Json :=
  .arr (favs.map .num)

/-- The persistence effect of `useFavorites`
(`localStorage.setItem(FAVORITES_KEY, JSON.stringify(favorites))`). -/
def persistFavorites (store : Store) (favs : List Int) : Store :=
  setItem store FAVORITES_KEY (favoritesToJson favs)

/-- Read a JSON array's elements back as a list of integer ids, if every
element is a number. -/
def jsonToIds : List Json → Option (List Int)
  | [] => some []
  | .num n :: rest => (jsonToIds rest).map (n :: ·)
  | _ :: _ => none

/-- A JSON value as a list of integer ids, if it is an array of numbers. -/
def asIntList : Json → Option (List Int)
  | .arr elems => jsonToIds elems
  | _ => none

/-- Whether a JSON value is a duplicate-free array of integers — the
"favorites is a set of integers" shape. -/
def isFavoritesSet (j : Json) : Bool :=
  match asIntList j with
  | some l => decide l.Nodup
  | none => false

/-- `toggleFavorite` (PlantBrowser.tsx lines 27-29):
`favs.includes(id) ? favs.filter(f => f !== id) : [...favs, id]`. -/
def toggleFavorite (id : Int) (favs : List Int) : List Int :=
  if id ∈ favs then favs.filter (fun f => f != id) else favs ++ [id]

theorem toggleFavorite_of_mem (id : Int) (favs : List Int) (h : id ∈ favs) :
    toggleFavorite id favs = favs.filter (fun f => f != id) := by
  simp [toggleFavorite, h]

theorem toggleFavorite_of_not_mem (id : Int) (favs : List Int) (h : id ∉ favs) :
    toggleFavorite id favs = favs ++ [id] := by
  simp [toggleFavorite, h]

theorem not_mem_filter_bne (id : Int) (favs : List Int) :
    id ∉ favs.filter (fun f => f != id) := by
  intro hmem
  have := List.of_mem_filter hmem
  simp at this

theorem filter_bne_of_not_mem (id : Int) (favs : List Int) (h : id ∉ favs) :
    favs.filter (fun f => f != id) = favs :=
  List.filter_eq_self.mpr fun b hb => by
    simp only [bne_iff_ne, ne_eq]
    exact fun hba => h (hba ▸ hb)

/-- Claim C1 (counterexample): toggling the same id twice does not in general
return the original list — removing a favorite from the middle and re-adding
it appends it at the end. -/
theorem toggle_twice_not_identity :
    toggleFavorite 5 (toggleFavorite 5 [1, 5, 2]) ≠ [1, 5, 2] := by decide

/-- Claim C1 (amended): for a duplicate-free favorites list, toggling an id
twice in succession yields a permutation of the original list (the same set of
favorites); when the id was not already a favorite the original list itself is
restored. -/
theorem toggle_twice_perm (id : Int) (favs : List Int) (h : favs.Nodup) :
    List.Perm (toggleFavorite id (toggleFavorite id favs)) favs ∧
    (id ∉ favs → toggleFavorite id (toggleFavorite id favs) = favs) := by
  have not_mem_case : id ∉ favs → toggleFavorite id (toggleFavorite id favs) = favs := by
    intro hm
    rw [toggleFavorite_of_not_mem id favs hm]
    have hmem : id ∈ favs ++ [id] := by simp
    rw [toggleFavorite_of_mem id _ hmem, List.filter_append,
      filter_bne_of_not_mem id favs hm]
    simp
  refine ⟨?_, not_mem_case⟩
  by_cases hm : id ∈ favs
  · rw [toggleFavorite_of_mem id favs hm,
      toggleFavorite_of_not_mem id _ (not_mem_filter_bne id favs)]
    have p1 : List.Perm (favs.filter (fun f => f != id) ++ [id])
        (id :: favs.filter (fun f => f != id)) := List.perm_append_singleton id _
    have e1 : favs.filter (fun f => f != id) = favs.erase id :=
      (List.Nodup.erase_eq_filter h id).symm
    have p2 : List.Perm favs (id :: favs.erase id) := List.perm_cons_erase hm
    rw [e1] at p1 ⊢
    exact p1.trans p2.symm
  · rw [not_mem_case hm]

/-- Witness for `toggle_twice_perm` at a concrete duplicate-free list. -/
theorem toggle_twice_perm_witness :
    ([3, 7] : List Int).Nodup ∧
    (List.Perm (toggleFavorite 9 (toggleFavorite 9 [3, 7])) [3, 7] ∧
      (9 ∉ ([3, 7] : List Int) → toggleFavorite 9 (toggleFavorite 9 [3, 7]) = [3, 7])) :=
  ⟨by decide, toggle_twice_perm 9 [3, 7] (by decide)⟩

/-- Claim C2 (counterexample): initialization does not validate the stored
value — browser storage holding the JSON array `[5,5]` is accepted as the
initial favorites state, which is not a duplicate-free set of integers. -/
theorem init_not_always_set :
    isFavoritesSet (initFavoritesJson (.value (Json.arr [Json.num 5, Json.num 5]))) = false := by
  decide

/-- Claim C2 (amended): `toggleFavorite` preserves the duplicate-free
integer-list shape of the favorites state, and initialization yields that
shape when the stored value is absent, malformed, or itself a duplicate-free
integer array; arbitrary stored JSON values, however, are accepted
unvalidated. -/
theorem favorites_set_invariant :
    (∀ (id : Int) (favs : List Int), favs.Nodup → (toggleFavorite id favs).Nodup) ∧
    (∀ s : StoredValue, (∀ j, s = .value j → isFavoritesSet j = true) →
      isFavoritesSet (initFavoritesJson s) = true) := by
  refine ⟨?_, ?_⟩
  · intro id favs h
    by_cases hm : id ∈ favs
    · rw [toggleFavorite_of_mem id favs hm]
      exact h.filter _
    · rw [toggleFavorite_of_not_mem id favs hm]
      simp [List.nodup_append, h, hm]
  · intro s hs
    cases s with
    | absent => rfl
    | malformed => rfl
    | value j => exact hs j rfl

/-- Witness for `favorites_set_invariant` at concrete inputs. -/
theorem favorites_set_invariant_witness :
    (([2, 3] : List Int).Nodup ∧ (toggleFavorite 4 [2, 3]).Nodup) ∧
    isFavoritesSet (initFavoritesJson .absent) = true :=
  ⟨⟨by decide, favorites_set_invariant.1 4 [2, 3] (by decide)⟩,
   favorites_set_invariant.2 .absent (fun _ h => nomatch h)⟩

theorem jsonToIds_map_num (favs : List Int) :
    jsonToIds (favs.map Json.num) = some favs := by
  induction favs with
  | nil => rfl
  | cons a l ih => simp [jsonToIds, ih]

/-- Claim C6: favorites are persisted under the single storage key
`plant_favorites` as a JSON array of ids, and writing a favorites list to
storage and re-initializing `useFavorites` from that storage yields the same
list. -/
theorem persist_load_roundtrip (store : Store) (favs : List Int) :
    FAVORITES_KEY = "plant_favorites" ∧
    asIntList (initFavorites (persistFavorites store favs)) = some favs := by
  refine ⟨rfl, ?_⟩
  simp [initFavorites, persistFavorites, setItem, initFavoritesJson, asIntList,
    favoritesToJson, jsonToIds_map_num]

/-- Claim C8: when the favorites key is absent from storage (`getItem` yields
`null`, so `'[]'` is parsed) or holds invalid JSON (the `catch` arm), the
favorites state initializes to the empty list; `initFavoritesJson` is a total
function, so the getter never throws. -/
theorem init_absent_or_malformed_empty :
    initFavoritesJson .absent = Json.arr [] ∧
    initFavoritesJson .malformed = Json.arr [] ∧
    asIntList (initFavoritesJson .absent) = some [] ∧
    asIntList (initFavoritesJson .malformed) = some [] :=
  ⟨rfl, rfl, rfl, rfl⟩

/-- `const API_KEY` (perenual.ts line 4; the second revision reads it from an
environment variable instead, which does not affect any claim). -/
def API_KEY : String := "sk-pO6L680aa668e24189997"

/-- `const BASE_URL` (perenual.ts line 5). -/
def BASE_URL : String := "https://perenual.com/api/v2"

/-- `interface PlantImage` (perenual.ts lines 7-17). -/
structure PlantImage where
  image_id : Int
  license : Int
  license_name : String
  license_url : String
  original_url : String
  regular_url : String
  medium_url : String
  small_url : String
  thumbnail : String

/-- `interface Plant` (perenual.ts lines 19-27). -/
structure Plant where
  id : Int
  common_name : String
  scientific_name : List String
  other_name : Option (List String)
  family : Option String
  genus : String
  default_image : Option PlantImage

/-- `interface PlantListResponse` (perenual.ts lines 29-37); `to` and `from`
are Lean keywords, hence the guillemets. -/
structure PlantListResponse where
  data : List Plant
  «to» : Int
  per_page : Int
  current_page : Int
  «from» : Int
  last_page : Int
  total : Int

/-- `interface PlantDetails extends Plant` (perenual.ts lines 39-81); the
`any`-typed fields are modelled as JSON values. -/
structure PlantDetails extends Plant where
  description : Option String := none
  origin : Option String := none
  type : Option String := none
  dimensions : Option Json := none
  cycle : Option String := none
  watering : Option String := none
  sunlight : Option (List String) := none
  pruning_month : Option (List String) := none
  pruning_count : Option Json := none
  seeds : Option Int := none
  attracts : Option (List String) := none
  propagation : Option (List String) := none
  hardiness : Option Json := none
  hardiness_location : Option Json := none
  flowers : Option Bool := none
  flowering_season : Option String := none
  soil : Option (List String) := none
  pest_susceptibility : Option (List String) := none
  cones : Option Bool := none
  fruits : Option Bool := none
  edible_fruit : Option Bool := none
  fruiting_season : Option String := none
  harvest_season : Option String := none
  harvest_method : Option String := none
  leaf : Option Bool := none
  edible_leaf : Option Bool := none
  growth_rate : Option String := none
  maintenance : Option String := none
  medicinal : Option Bool := none
  poisonous_to_humans : Option Bool := none
  poisonous_to_pets : Option Bool := none
  drought_tolerant : Option Bool := none
  salt_tolerant : Option Bool := none
  thorny : Option Bool := none
  invasive : Option Bool := none
  rare : Option Bool := none
  tropical : Option Bool := none
  cuisine : Option Bool := none
  indoor : Option Bool := none
  care_level : Option String := none
  other_images : Option (List PlantImage) := none

/-- The argument object of `fetchPlants` (perenual.ts lines 84-106); `none`
models an omitted (`undefined`) property. -/
structure FetchPlantsArgs where
  page : Option Int := none
  q : Option String := none
  order : Option String := none
  edible : Option Bool := none
  poisonous : Option Bool := none
  cycle : Option String := none
  watering : Option String := none
  sunlight : Option String := none
  indoor : Option Bool := none
  hardiness : Option String := none

/-- `if (v) params.append(name, v)` for a string-valued argument: JavaScript
truthiness appends the parameter exactly when the string is present and
non-empty (the `q = ''` and `order = ''` destructuring defaults make an
omitted argument behave like the empty string). -/
def strParam (name : String) (v : Option String) : List (String × String) :=
  if v.getD "" = "" then [] else [(name, v.getD "")]

/-- `if (v !== undefined) params.append(name, v ? '1' : '0')` for a
boolean-valued argument. -/
def boolParam (name : String) (v : Option Bool) : List (String × String) :=
  match v with
  | some b => [(name, if b then "1" else "0")]
  | none => []

/-- `if (v !== undefined) params.append(name, String(v))` for a numeric
argument (used by the disease / care-guide endpoints). -/
def intParam (name : String) (v : Option Int) : List (String × String) :=
  match v with
  | some i => [(name, toString i)]
  | none => []

/-- The `URLSearchParams` built by `fetchPlants` (perenual.ts lines 107-119),
in append order. -/
def buildPlantsParams (a : FetchPlantsArgs) : List (String × String) :=
  [("key", API_KEY), ("page", toString (a.page.getD 1))]
    ++ strParam "q" a.q
    ++ strParam "order" a.order
    ++ boolParam "edible" a.edible
    ++ boolParam "poisonous" a.poisonous
    ++ strParam "cycle" a.cycle
    ++ strParam "watering" a.watering
    ++ strParam "sunlight" a.sunlight
    ++ boolParam "indoor" a.indoor
    ++ strParam "hardiness" a.hardiness

/-- `params.toString()`, modelled without percent-encoding (both sides of
every URL comparison go through the same encoding). -/
def encodeParams (ps : List (String × String)) : String :=
  String.intercalate "&" (ps.map fun p => p.1 ++ "=" ++ p.2)

/-- The request URL of `fetchPlants` (perenual.ts line 121). -/
def plantsUrl (a : FetchPlantsArgs) : String :=
  BASE_URL ++ "/species-list?" ++ encodeParams (buildPlantsParams a)

/-- An HTTP response as the wrappers consume it: the `ok` flag and the JSON
body that `res.json()` yields. -/
structure HttpResponse where
  ok : Bool
  body : Json

/-- The ambient `fetch`: a response for every request URL. -/
def Http : Type := String → HttpResponse

/-- `if (!res.ok) throw new Error(msg); return res.json();` — the shared tail
of every wrapper. -/
def checkOk (msg : String) (res : HttpResponse) : Except String Json :=
  if !res.ok then .error msg else .ok res.body

/-- Whether a wrapper call rejected. -/
def isError : Except String Json → Bool
  | .error _ => true
  | .ok _ => false

/-- `fetchPlants` (perenual.ts lines 84-125): build the URL, fetch, reject on
a non-ok response, return the parsed body otherwise. -/
def fetchPlants (http : Http) (a : FetchPlantsArgs) : Except String Json :=
  checkOk "Failed to fetch plant list" (http (plantsUrl a))

/-- The request URL of `fetchPlantDetails` (perenual.ts line 129). -/
def plantDetailsUrl (id : Int) : String :=
  BASE_URL ++ "/species/details/" ++ toString id ++ "?key=" ++ API_KEY

/-- `fetchPlantDetails` (perenual.ts lines 128-133). -/
def fetchPlantDetails (http : Http) (id : Int) : Except String Json :=
  checkOk "Failed to fetch plant details" (http (plantDetailsUrl id))

/-- The argument object of `fetchDiseaseList` (perenual.ts lines 340-348). -/
structure FetchDiseaseArgs where
  id : Option Int := none
  page : Option Int := none
  q : Option String := none

/-- The `URLSearchParams` built by `fetchDiseaseList`. -/
def buildDiseaseParams (a : FetchDiseaseArgs) : List (String × String) :=
  [("key", API_KEY), ("page", toString (a.page.getD 1))]
    ++ intParam "id" a.id
    ++ strParam "q" a.q

/-- The request URL of `fetchDiseaseList` (perenual.ts line 355). -/
def diseaseUrl (a : FetchDiseaseArgs) : String :=
  "https://perenual.com/api/pest-disease-list?" ++ encodeParams (buildDiseaseParams a)

/-- `fetchDiseaseList` (perenual.ts lines 340-359). -/
def fetchDiseaseList (http : Http) (a : FetchDiseaseArgs) : Except String Json :=
  checkOk "Failed to fetch disease list" (http (diseaseUrl a))

/-- The argument object of `fetchCareGuideList` (perenual.ts lines 362-372). -/
structure FetchCareGuideArgs where
  species_id : Option Int := none
  page : Option Int := none
  q : Option String := none
  type : Option String := none

/-- The `URLSearchParams` built by `fetchCareGuideList`. -/
def buildCareGuideParams (a : FetchCareGuideArgs) : List (String × String) :=
  [("key", API_KEY), ("page", toString (a.page.getD 1))]
    ++ intParam "species_id" a.species_id
    ++ strParam "q" a.q
    ++ strParam "type" a.type

/-- The request URL of `fetchCareGuideList` (perenual.ts line 380). -/
def careGuideUrl (a : FetchCareGuideArgs) : String :=
  "https://perenual.com/api/species-care-guide-list?" ++ encodeParams (buildCareGuideParams a)

/-- `fetchCareGuideList` (perenual.ts lines 362-384). -/
def fetchCareGuideList (http : Http) (a : FetchCareGuideArgs) : Except String Json :=
  checkOk "Failed to fetch care guide list" (http (careGuideUrl a))

/-- The `URLSearchParams` built by `fetchHardinessMap` (species_id is a
required argument). -/
def buildHardinessParams (species_id : Int) : List (String × String) :=
  [("key", API_KEY), ("species_id", toString species_id)]

/-- The request URL of `fetchHardinessMap` (perenual.ts line 396). -/
def hardinessMapUrl (species_id : Int) : String :=
  "https://perenual.com/api/hardiness-map?" ++ encodeParams (buildHardinessParams species_id)

/-- `fetchHardinessMap` (perenual.ts lines 387-400). -/
def fetchHardinessMap (http : Http) (species_id : Int) : Except String Json :=
  checkOk "Failed to fetch hardiness map" (http (hardinessMapUrl species_id))

theorem checkOk_spec (msg : String) (res : HttpResponse) :
    isError (checkOk msg res) = !res.ok ∧
    (res.ok = true → checkOk msg res = .ok res.body) := by
  rcases res with ⟨ok, body⟩
  cases ok <;> simp [checkOk, isError]

/-- Claim C3: each API wrapper (`fetchPlants`, `fetchPlantDetails`,
`fetchDiseaseList`, `fetchCareGuideList`, `fetchHardinessMap`) rejects with an
`Error` exactly when the HTTP response is not ok, and returns the parsed JSON
body when it is ok. -/
theorem wrappers_reject_iff_not_ok (http : Http) (a : FetchPlantsArgs)
    (d : FetchDiseaseArgs) (c : FetchCareGuideArgs) (id sid : Int) :
    (isError (fetchPlants http a) = !(http (plantsUrl a)).ok ∧
      ((http (plantsUrl a)).ok = true →
        fetchPlants http a = .ok (http (plantsUrl a)).body)) ∧
    (isError (fetchPlantDetails http id) = !(http (plantDetailsUrl id)).ok ∧
      ((http (plantDetailsUrl id)).ok = true →
        fetchPlantDetails http id = .ok (http (plantDetailsUrl id)).body)) ∧
    (isError (fetchDiseaseList http d) = !(http (diseaseUrl d)).ok ∧
      ((http (diseaseUrl d)).ok = true →
        fetchDiseaseList http d = .ok (http (diseaseUrl d)).body)) ∧
    (isError (fetchCareGuideList http c) = !(http (careGuideUrl c)).ok ∧
      ((http (careGuideUrl c)).ok = true →
        fetchCareGuideList http c = .ok (http (careGuideUrl c)).body)) ∧
    (isError (fetchHardinessMap http sid) = !(http (hardinessMapUrl sid)).ok ∧
      ((http (hardinessMapUrl sid)).ok = true →
        fetchHardinessMap http sid = .ok (http (hardinessMapUrl sid)).body)) :=
  ⟨checkOk_spec _ _, checkOk_spec _ _, checkOk_spec _ _, checkOk_spec _ _,
    checkOk_spec _ _⟩

/-- A `fetch` that always answers ok with a `null` body, for the witness. -/
def okHttp : Http := fun _ => { ok := true, body := Json.null }

/-- Witness for `wrappers_reject_iff_not_ok` at concrete inputs. -/
theorem wrappers_reject_iff_not_ok_witness :
    (okHttp (plantsUrl {})).ok = true ∧
    fetchPlants okHttp {} = .ok (okHttp (plantsUrl {})).body :=
  ⟨rfl, (wrappers_reject_iff_not_ok okHttp {} {} {} 1 2).1.2 rfl⟩

theorem mem_strParam (n m v : String) (s : Option String) :
    (m, v) ∈ strParam n s ↔ (s.getD "" ≠ "" ∧ m = n ∧ v = s.getD "") := by
  unfold strParam
  split_ifs with h <;> simp [h, Prod.ext_iff]

theorem mem_boolParam (n m v : String) (b? : Option Bool) :
    (m, v) ∈ boolParam n b? ↔
      (∃ b, b? = some b ∧ m = n ∧ v = (if b then "1" else "0")) := by
  cases b? <;> simp [boolParam, Prod.ext_iff]

theorem mem_intParam (n m v : String) (i? : Option Int) :
    (m, v) ∈ intParam n i? ↔ (∃ i, i? = some i ∧ m = n ∧ v = toString i) := by
  cases i? <;> simp [intParam, Prod.ext_iff]

theorem mem_buildPlantsParams (a : FetchPlantsArgs) (m v : String) :
    (m, v) ∈ buildPlantsParams a ↔
      ((m = "key" ∧ v = API_KEY) ∨
        (m = "page" ∧ v = toString (a.page.getD 1)) ∨
        (a.q.getD "" ≠ "" ∧ m = "q" ∧ v = a.q.getD "") ∨
        (a.order.getD "" ≠ "" ∧ m = "order" ∧ v = a.order.getD "") ∨
        (∃ b, a.edible = some b ∧ m = "edible" ∧ v = (if b then "1" else "0")) ∨
        (∃ b, a.poisonous = some b ∧ m = "poisonous" ∧ v = (if b then "1" else "0")) ∨
        (a.cycle.getD "" ≠ "" ∧ m = "cycle" ∧ v = a.cycle.getD "") ∨
        (a.watering.getD "" ≠ "" ∧ m = "watering" ∧ v = a.watering.getD "") ∨
        (a.sunlight.getD "" ≠ "" ∧ m = "sunlight" ∧ v = a.sunlight.getD "") ∨
        (∃ b, a.indoor = some b ∧ m = "indoor" ∧ v = (if b then "1" else "0")) ∨
        (a.hardiness.getD "" ≠ "" ∧ m = "hardiness" ∧ v = a.hardiness.getD "")) := by
  simp only [buildPlantsParams, List.mem_append, List.mem_cons,
    List.mem_singleton, List.not_mem_nil, or_false, Prod.mk.injEq,
    mem_strParam, mem_boolParam, or_assoc]

/-- Claim C4: the `fetchPlants` request always carries the `key` and `page`
parameters; each of `q`, `order`, `cycle`, `watering`, `sunlight`, `hardiness`
appears exactly when that argument is a non-empty string; each of `edible`,
`poisonous`, `indoor` appears exactly when that argument is defined, encoded
as `'1'`/`'0'`; and no other parameter is ever added. -/
theorem plants_params_exact (a : FetchPlantsArgs) :
    ("key", API_KEY) ∈ buildPlantsParams a ∧
    ("page", toString (a.page.getD 1)) ∈ buildPlantsParams a ∧
    ((∃ v, ("q", v) ∈ buildPlantsParams a) ↔ ∃ s, a.q = some s ∧ s ≠ "") ∧
    ((∃ v, ("order", v) ∈ buildPlantsParams a) ↔ ∃ s, a.order = some s ∧ s ≠ "") ∧
    ((∃ v, ("cycle", v) ∈ buildPlantsParams a) ↔ ∃ s, a.cycle = some s ∧ s ≠ "") ∧
    ((∃ v, ("watering", v) ∈ buildPlantsParams a) ↔ ∃ s, a.watering = some s ∧ s ≠ "") ∧
    ((∃ v, ("sunlight", v) ∈ buildPlantsParams a) ↔ ∃ s, a.sunlight = some s ∧ s ≠ "") ∧
    ((∃ v, ("hardiness", v) ∈ buildPlantsParams a) ↔ ∃ s, a.hardiness = some s ∧ s ≠ "") ∧
    ((∃ v, ("edible", v) ∈ buildPlantsParams a) ↔ a.edible.isSome = true) ∧
    ((∃ v, ("poisonous", v) ∈ buildPlantsParams a) ↔ a.poisonous.isSome = true) ∧
    ((∃ v, ("indoor", v) ∈ buildPlantsParams a) ↔ a.indoor.isSome = true) ∧
    (∀ b, a.edible = some b → ("edible", if b then "1" else "0") ∈ buildPlantsParams a) ∧
    (∀ b, a.poisonous = some b → ("poisonous", if b then "1" else "0") ∈ buildPlantsParams a) ∧
    (∀ b, a.indoor = some b → ("indoor", if b then "1" else "0") ∈ buildPlantsParams a) ∧
    (∀ p ∈ buildPlantsParams a, p.1 ∈
      ["key", "page", "q", "order", "edible", "poisonous", "cycle", "watering",
        "sunlight", "indoor", "hardiness"]) := by
  refine ⟨?_, ?_, ?_, ?_, ?_, ?_, ?_, ?_, ?_, ?_, ?_, ?_, ?_, ?_, ?_⟩
  · exact (mem_buildPlantsParams a "key" API_KEY).mpr (Or.inl ⟨rfl, rfl⟩)
  · exact (mem_buildPlantsParams a "page" _).mpr (Or.inr (Or.inl ⟨rfl, rfl⟩))
  · simp only [mem_buildPlantsParams]
    cases a.q <;> simp
  · simp only [mem_buildPlantsParams]
    cases a.order <;> simp
  · simp only [mem_buildPlantsParams]
    cases a.cycle <;> simp
  · simp only [mem_buildPlantsParams]
    cases a.watering <;> simp
  · simp only [mem_buildPlantsParams]
    cases a.sunlight <;> simp
  · simp only [mem_buildPlantsParams]
    cases a.hardiness <;> simp
  · simp only [mem_buildPlantsParams]
    cases a.edible <;> simp
  · simp only [mem_buildPlantsParams]
    cases a.poisonous <;> simp
  · simp only [mem_buildPlantsParams]
    cases a.indoor <;> simp
  · intro b hb
    exact (mem_buildPlantsParams a "edible" _).mpr (by simp [hb])
  · intro b hb
    exact (mem_buildPlantsParams a "poisonous" _).mpr (by simp [hb])
  · intro b hb
    exact (mem_buildPlantsParams a "indoor" _).mpr (by simp [hb])
  · rintro ⟨m, v⟩ hp
    rcases (mem_buildPlantsParams a m v).mp hp with
      ⟨h, -⟩ | ⟨h, -⟩ | ⟨-, h, -⟩ | ⟨-, h, -⟩ | ⟨b, -, h, -⟩ | ⟨b, -, h, -⟩ |
      ⟨-, h, -⟩ | ⟨-, h, -⟩ | ⟨-, h, -⟩ | ⟨b, -, h, -⟩ | ⟨-, h, -⟩ <;>
    simp [h]

/-- Witness for `plants_params_exact`: the full parameter characterization at
a concrete argument object. -/
theorem plants_params_exact_witness :
    ("key", API_KEY) ∈ buildPlantsParams { page := some 2, q := some "rose", edible := some true } ∧
    ("page", toString ((({ page := some 2, q := some "rose", edible := some true } : FetchPlantsArgs).page).getD 1)) ∈
      buildPlantsParams { page := some 2, q := some "rose", edible := some true } ∧
    ((∃ v, ("q", v) ∈ buildPlantsParams { page := some 2, q := some "rose", edible := some true }) ↔
      ∃ s, ({ page := some 2, q := some "rose", edible := some true } : FetchPlantsArgs).q = some s ∧ s ≠ "") ∧
    ((∃ v, ("order", v) ∈ buildPlantsParams { page := some 2, q := some "rose", edible := some true }) ↔
      ∃ s, ({ page := some 2, q := some "rose", edible := some true } : FetchPlantsArgs).order = some s ∧ s ≠ "") ∧
    ((∃ v, ("cycle", v) ∈ buildPlantsParams { page := some 2, q := some "rose", edible := some true }) ↔
      ∃ s, ({ page := some 2, q := some "rose", edible := some true } : FetchPlantsArgs).cycle = some s ∧ s ≠ "") ∧
    ((∃ v, ("watering", v) ∈ buildPlantsParams { page := some 2, q := some "rose", edible := some true }) ↔
      ∃ s, ({ page := some 2, q := some "rose", edible := some true } : FetchPlantsArgs).watering = some s ∧ s ≠ "") ∧
    ((∃ v, ("sunlight", v) ∈ buildPlantsParams { page := some 2, q := some "rose", edible := some true }) ↔
      ∃ s, ({ page := some 2, q := some "rose", edible := some true } : FetchPlantsArgs).sunlight = some s ∧ s ≠ "") ∧
    ((∃ v, ("hardiness", v) ∈ buildPlantsParams { page := some 2, q := some "rose", edible := some true }) ↔
      ∃ s, ({ page := some 2, q := some "rose", edible := some true } : FetchPlantsArgs).hardiness = some s ∧ s ≠ "") ∧
    ((∃ v, ("edible", v) ∈ buildPlantsParams { page := some 2, q := some "rose", edible := some true }) ↔
      ({ page := some 2, q := some "rose", edible := some true } : FetchPlantsArgs).edible.isSome = true) ∧
    ((∃ v, ("poisonous", v) ∈ buildPlantsParams { page := some 2, q := some "rose", edible := some true }) ↔
      ({ page := some 2, q := some "rose", edible := some true } : FetchPlantsArgs).poisonous.isSome = true) ∧
    ((∃ v, ("indoor", v) ∈ buildPlantsParams { page := some 2, q := some "rose", edible := some true }) ↔
      ({ page := some 2, q := some "rose", edible := some true } : FetchPlantsArgs).indoor.isSome = true) ∧
    (∀ b, ({ page := some 2, q := some "rose", edible := some true } : FetchPlantsArgs).edible = some b →
      ("edible", if b then "1" else "0") ∈ buildPlantsParams { page := some 2, q := some "rose", edible := some true }) ∧
    (∀ b, ({ page := some 2, q := some "rose", edible := some true } : FetchPlantsArgs).poisonous = some b →
      ("poisonous", if b then "1" else "0") ∈ buildPlantsParams { page := some 2, q := some "rose", edible := some true }) ∧
    (∀ b, ({ page := some 2, q := some "rose", edible := some true } : FetchPlantsArgs).indoor = some b →
      ("indoor", if b then "1" else "0") ∈ buildPlantsParams { page := some 2, q := some "rose", edible := some true }) ∧
    (∀ p ∈ buildPlantsParams { page := some 2, q := some "rose", edible := some true }, p.1 ∈
      ["key", "page", "q", "order", "edible", "poisonous", "cycle", "watering",
        "sunlight", "indoor", "hardiness"]) :=
  plants_params_exact { page := some 2, q := some "rose", edible := some true }

/-- Claim C7: calling `fetchPlants` with `q` equal to the empty string builds
exactly the same parameter list and request URL as calling it with `q`
omitted, whatever the other arguments are — so clearing the search resets the
result set to the unsearched one. -/
theorem empty_q_same_url (a : FetchPlantsArgs) (h : a.q = some "") :
    buildPlantsParams a = buildPlantsParams { a with q := none } ∧
    plantsUrl a = plantsUrl { a with q := none } := by
  have hp : buildPlantsParams a = buildPlantsParams { a with q := none } := by
    simp [buildPlantsParams, strParam, h]
  exact ⟨hp, by simp only [plantsUrl, hp]⟩

/-- Witness for `empty_q_same_url` at the all-defaults argument object. -/
theorem empty_q_same_url_witness :
    ({ q := some "" } : FetchPlantsArgs).q = some "" ∧
    (buildPlantsParams { q := some "" } =
        buildPlantsParams { ({ q := some "" } : FetchPlantsArgs) with q := none } ∧
      plantsUrl { q := some "" } =
        plantsUrl { ({ q := some "" } : FetchPlantsArgs) with q := none }) :=
  ⟨rfl, empty_q_same_url { q := some "" } rfl⟩

/-- `getNextPageParam` (PlantBrowser.tsx lines 118-123): the next page is
`current_page + 1` while `current_page < last_page`, otherwise `undefined`. -/
def getNextPageParam (lastPage : PlantListResponse) : Option Int :=
  if lastPage.current_page < lastPage.last_page then some (lastPage.current_page + 1)
  else none

/-- `initialPageParam: 1` (PlantBrowser.tsx line 124). -/
def initialPageParam : Int := 1

/-- Claim C5: pagination starts at page 1; the next page requested is
`current_page + 1` exactly while `current_page < last_page`, and no next page
is requested once `current_page >= last_page`. -/
theorem next_page_param_spec (lastPage : PlantListResponse) :
    (lastPage.current_page < lastPage.last_page →
      getNextPageParam lastPage = some (lastPage.current_page + 1)) ∧
    (lastPage.last_page ≤ lastPage.current_page →
      getNextPageParam lastPage = none) ∧
    initialPageParam = 1 := by
  refine ⟨?_, ?_, rfl⟩
  · intro h
    unfold getNextPageParam
    rw [if_pos h]
  · intro h
    unfold getNextPageParam
    rw [if_neg (by omega)]

/-- A concrete page response for the pagination witness. -/
def pageResp (cur last : Int) : PlantListResponse :=
  { data := [], «to» := 0, per_page := 30, current_page := cur, «from» := 1,
    last_page := last, total := 90 }

/-- Witness for `next_page_param_spec`: a middle page advances, the last page
stops. -/
theorem next_page_param_spec_witness :
    ((pageResp 1 3).current_page < (pageResp 1 3).last_page ∧
      getNextPageParam (pageResp 1 3) = some ((pageResp 1 3).current_page + 1)) ∧
    ((pageResp 3 3).last_page ≤ (pageResp 3 3).current_page ∧
      getNextPageParam (pageResp 3 3) = none) :=
  ⟨⟨by decide, (next_page_param_spec (pageResp 1 3)).1 (by decide)⟩,
   ⟨by decide, (next_page_param_spec (pageResp 3 3)).2.1 (by decide)⟩⟩

/-- The modal-relevant component state: `selectedPlant` and `detailsLoading`. -/
structure DetailsState where
  selectedPlant : Option PlantDetails
  detailsLoading : Bool

/-- `openDetails` (PlantBrowser.tsx lines 164-173), taking the outcome of the
awaited `fetchPlantDetails` call: set loading, clear the selection, set the
selection only on success; the `finally` clears loading on both paths (on
rejection the exception propagates after the `finally` has run). -/
def openDetails (fetchResult : Except String PlantDetails) (s : DetailsState) :
    DetailsState :=
  let s1 : DetailsState := { s with detailsLoading := true }
  let s2 : DetailsState := { s1 with selectedPlant := none }
  match fetchResult with
  | .ok details =>
      let s3 : DetailsState := { s2 with selectedPlant := some details }
      { s3 with detailsLoading := false }
  | .error _ => { s2 with detailsLoading := false }

/-- Claim C9: when the details fetch rejects, `selectedPlant` is `null` and
`detailsLoading` has been reset to `false`; `selectedPlant` is set exactly by
a successful fetch. -/
theorem openDetails_spec (res : Except String PlantDetails) (s : DetailsState) :
    (∀ e, res = .error e →
      (openDetails res s).selectedPlant = none ∧
        (openDetails res s).detailsLoading = false) ∧
    (∀ d, res = .ok d →
      (openDetails res s).selectedPlant = some d ∧
        (openDetails res s).detailsLoading = false) ∧
    ((openDetails res s).selectedPlant.isSome = true → ∃ d, res = .ok d) := by
  cases res <;> simp [openDetails]

/-- Witness for `openDetails_spec` at a concrete rejected fetch. -/
theorem openDetails_spec_witness :
    (openDetails (.error "network failure") ⟨none, false⟩).selectedPlant = none ∧
    (openDetails (.error "network failure") ⟨none, false⟩).detailsLoading = false :=
  (openDetails_spec (.error "network failure") ⟨none, false⟩).1 "network failure" rfl

/-- The virtualizer row count (`count: hasNextPage ? filteredPlants.length + 1
: filteredPlants.length`, PlantBrowser.tsx lines 132-133). -/
def rowCount (hasNextPage : Bool) (numPlants : Nat) : Nat :=
  if hasNextPage then numPlants + 1 else numPlants

/-- `const isLoaderRow = virtualRow.index > filteredPlants.length - 1`
(PlantBrowser.tsx line 283), with JavaScript arithmetic: for an empty list the
right-hand side is `-1`, so the comparison is over the integers. -/
def isLoaderRow (index : Nat) (numPlants : Nat) : Prop :=
  (index : Int) > (numPlants : Int) - 1

/-- Claim C10: among the virtual row indices `0 ≤ index < rowCount`, the
loader row is exactly the single extra index `numPlants` that exists only when
a next page exists; every other index maps to a plant of `filteredPlants`. -/
theorem loader_row_iff (plants : List Plant) (hasNext : Bool) (index : Nat)
    (h : index < rowCount hasNext plants.length) :
    (isLoaderRow index plants.length ↔ hasNext = true ∧ index = plants.length) ∧
    (¬ isLoaderRow index plants.length →
      index < plants.length ∧ (plants.get? index).isSome = true) := by
  unfold rowCount at h
  unfold isLoaderRow
  split at h
  · next heq =>
    refine ⟨⟨fun _ => ⟨heq, by omega⟩, ?_⟩, fun hni => ?_⟩
    · rintro ⟨-, hidx⟩
      omega
    · have hlt : index < plants.length := by omega
      refine ⟨hlt, ?_⟩
      rw [List.get?_eq_get hlt]
      rfl
  · next heq =>
    refine ⟨⟨fun hi => absurd (show (index : Int) ≤ plants.length - 1 by omega)
      (by omega), ?_⟩, fun _ => ⟨h, ?_⟩⟩
    · rintro ⟨hn, -⟩
      exact absurd hn heq
    · rw [List.get?_eq_get h]
      rfl

/-- A concrete plant for the virtualization witness. -/
def examplePlant : Plant :=
  { id := 1, common_name := "Rose", scientific_name := ["Rosa"],
    other_name := none, family := none, genus := "Rosa", default_image := none }

/-- Witness for `loader_row_iff`: with one plant and a next page, index 1 is
the loader row. -/
theorem loader_row_iff_witness :
    1 < rowCount true [examplePlant].length ∧
    ((isLoaderRow 1 [examplePlant].length ↔ true = true ∧ 1 = [examplePlant].length) ∧
      (¬ isLoaderRow 1 [examplePlant].length →
        1 < [examplePlant].length ∧ ([examplePlant].get? 1).isSome = true)) :=
  ⟨by decide, loader_row_iff [examplePlant] true 1 (by decide)⟩
